import Mathlib

/-!
Verification development for the signal-trading repository.

Shallow embedding of the RSI signal-detection and deduplication pipeline
(`src/rsi_analyzer.py`), the settings persistence (`src/database.py`) and the
settings write endpoint (`src/web_interface.py`).

Modelling conventions:
* Timestamps are integer seconds (`Int`).  The SQL trailing-window filter
  `timestamp >= now - hours_back hours` is embedded with the window expressed
  in seconds: `hours_back=2` becomes `7200`, `hours_back=0.17` becomes `612`
  (0.17 * 3600 = 612 exactly).
* Oscillator (RSI) values and prices are exact rationals (`ℚ`); the code only
  compares them, never computes with them.  A missing value (pandas `NaN`) is
  `Option.none`.
* Python strings submitted to the settings endpoint are `List Char`, with the
  `strip`/`upper`/`endswith`/`len`/`+` operations embedded explicitly.
* The database tables are embedded per table: the `rsi_signals` table is a
  `List SignalRec` in insertion order (an `INSERT` appends), the single
  `user_settings` row is an `Option UserSettings`.
-/

namespace SignalTrading

/-- The four crossing kinds stored in the `signal_type` column. -/
inductive SignalType where
  | oversold_enter
  | oversold_exit
  | overbought_enter
  | overbought_exit
deriving DecidableEq, BEq, Repr

/-- One row of the market-data frame handed to the analyzer: timestamp index,
close price and the precomputed RSI column (`none` models pandas `NaN`). -/
structure Candle where
  ts : Int
  close : ℚ
  rsi : Option ℚ
deriving DecidableEq, Repr

/-- One row of the `rsi_signals` table, which is also the shape of the signal
dict built by `analyze_rsi_signals` (the dict and the inserted row carry the
same fields). -/
structure SignalRec where
  symbol : String
  timeframe : String
  signal_type : SignalType
  rsi_value : ℚ
  price : ℚ
  timestamp : Int
  previous_rsi : ℚ
deriving DecidableEq, Repr

/-- The analyzer configuration fields read by `rsi_analyzer.py`
(`config.RSI_OVERSOLD = 30`, `config.RSI_OVERBOUGHT = 70`). -/
structure AnalyzerConfig where
  RSI_OVERSOLD : ℚ
  RSI_OVERBOUGHT : ℚ

/-- The single `user_settings` row (`database.py`). -/
structure UserSettings where
  symbols : List (List Char)
  timeframe : String
  rsi_oversold : Int
  rsi_overbought : Int
  notifications_enabled : Bool
deriving DecidableEq, Repr

/-- Insert one record into a timestamp-descending list, keeping it sorted
(models the `ORDER BY timestamp DESC` of `get_recent_signals`). -/
def insertTsDesc (x : SignalRec) : List SignalRec → List SignalRec
  | [] => [x]
  | y :: ys => if x.timestamp ≤ y.timestamp then y :: insertTsDesc x ys else x :: y :: ys

/-- Sort a list of records by timestamp, newest first. -/
def sortTsDesc (l : List SignalRec) : List SignalRec :=
  l.foldr insertTsDesc []

/-- The `WHERE` clause of `RSIDatabase.get_recent_signals`: optional equality
filters on `symbol` and `timeframe`, and an optional trailing time window
`timestamp >= now - seconds_back` (the source passes `hours_back` in hours;
here the window is in seconds). -/
def query_filter (symbol timeframe : Option String) (seconds_back : Option Int)
    (now : Int) (e : SignalRec) : Bool :=
  (match symbol with
   | none => true
   | some s => e.symbol == s) &&
  (match timeframe with
   | none => true
   | some t => e.timeframe == t) &&
  (match seconds_back with
   | none => true
   | some sb => decide (now - sb ≤ e.timestamp))

/-- `RSIDatabase.get_recent_signals`: filter the `rsi_signals` table, order by
timestamp descending, and truncate to `limit` rows (the callers in
`rsi_analyzer.py` use the default `limit=100`). -/
def get_recent_signals (store : List SignalRec) (symbol timeframe : Option String)
    (seconds_back : Option Int) (now : Int) (limit : Nat) : List SignalRec :=
  (sortTsDesc (store.filter (query_filter symbol timeframe seconds_back now))).take limit

/-- `RSIDatabase.add_signal`: one `INSERT` appending a row to `rsi_signals`. -/
def add_signal (store : List SignalRec) (sig : SignalRec) : List SignalRec :=
  store ++ [sig]

/-- The scan inside `_was_signal_processed`: some returned signal lies within
60 seconds (absolute difference) of the candle timestamp. -/
def processed_scan (recent : List SignalRec) (ts : Int) : Bool :=
  recent.any (fun s => decide ((s.timestamp - ts).natAbs < 60))

/-- The scan inside `_is_duplicate_signal`: some returned signal has the same
`signal_type` as the candidate. -/
def duplicate_scan (recent : List SignalRec) (k : SignalType) : Bool :=
  recent.any (fun s => s.signal_type == k)

/-- `RSIAnalyzer._was_signal_processed`: query the last 2 hours
(`hours_back=2`, i.e. 7200 s) for this `(symbol, timeframe)` and report
whether any returned signal is within 60 s of the candle timestamp. -/
def was_signal_processed (store : List SignalRec) (symbol timeframe : String)
    (ts : Int) (now : Int) : Bool :=
  processed_scan (get_recent_signals store (some symbol) (some timeframe) (some 7200) now 100) ts

/-- `RSIAnalyzer._is_duplicate_signal`: query the last 10 minutes
(`hours_back=0.17`, i.e. 612 s) for the candidate's `(symbol, timeframe)` and
report whether any returned signal has the candidate's `signal_type`. -/
def is_duplicate_signal (store : List SignalRec) (sig : SignalRec) (now : Int) : Bool :=
  duplicate_scan
    (get_recent_signals store (some sig.symbol) (some sig.timeframe) (some 612) now 100)
    sig.signal_type

/-- `_was_signal_processed` with the store query made fallible: the `except`
branch of the source returns `False` when the query raises. -/
def was_signal_processed_try (query : Except String (List SignalRec)) (ts : Int) : Bool :=
  match query with
  | Except.error _ => false
  | Except.ok recent => processed_scan recent ts

/-- `_is_duplicate_signal` with the store query made fallible: the `except`
branch of the source returns `False` when the query raises. -/
def is_duplicate_signal_try (query : Except String (List SignalRec)) (k : SignalType) : Bool :=
  match query with
  | Except.error _ => false
  | Except.ok recent => duplicate_scan recent k

/-- The live classification of one adjacent RSI pair
(`analyze_rsi_signals`, lines 41-51): entry crossings only. -/
def live_signal_type (cfg : AnalyzerConfig) (previous_rsi current_rsi : ℚ) : Option SignalType :=
  if previous_rsi > cfg.RSI_OVERSOLD ∧ current_rsi ≤ cfg.RSI_OVERSOLD then
    some SignalType.oversold_enter
  else if previous_rsi < cfg.RSI_OVERBOUGHT ∧ current_rsi ≥ cfg.RSI_OVERBOUGHT then
    some SignalType.overbought_enter
  else none

/-- The signal dict built by `analyze_rsi_signals` for a detected crossing. -/
def mk_signal (symbol timeframe : String) (k : SignalType) (curr : Candle)
    (prsi crsi : ℚ) : SignalRec :=
  { symbol := symbol
    timeframe := timeframe
    signal_type := k
    rsi_value := crsi
    price := curr.close
    timestamp := curr.ts
    previous_rsi := prsi }

/-- The mutable state of one `analyze_rsi_signals` call: the `signals` list
being accumulated and the `rsi_signals` table being appended to. -/
structure LiveState where
  signals : List SignalRec
  store : List SignalRec
deriving DecidableEq, Repr

/-- One iteration of the `analyze_rsi_signals` loop over an adjacent candle
pair: skip on missing RSI, skip when `_was_signal_processed`, classify, and on
a crossing emit and persist unless `_is_duplicate_signal`. -/
def process_live_pair (cfg : AnalyzerConfig) (symbol timeframe : String) (now : Int)
    (st : LiveState) (pair : Candle × Candle) : LiveState :=
  match pair.1.rsi, pair.2.rsi with
  | some prsi, some crsi =>
    if was_signal_processed st.store symbol timeframe pair.2.ts now then st
    else
      match live_signal_type cfg prsi crsi with
      | none => st
      | some k =>
        let sig := mk_signal symbol timeframe k pair.2 prsi crsi
        if is_duplicate_signal st.store sig now then st
        else { signals := st.signals ++ [sig], store := add_signal st.store sig }
  | _, _ => st

/-- Adjacent pairs of a list, in order. -/
def adjacentPairs : List Candle → List (Candle × Candle)
  | [] => []
  | [_] => []
  | a :: b :: rest => (a, b) :: adjacentPairs (b :: rest)

/-- The last `n` elements of a list. -/
def lastN (n : Nat) (l : List Candle) : List Candle :=
  l.drop (l.length - n)

/-- `RSIAnalyzer.analyze_rsi_signals`: frames shorter than 5 rows return no
signals and leave the table alone; otherwise the loop
`for i in range(lookback_candles - 1, 0, -1)` walks the 4 adjacent pairs of
the last 5 candles, oldest pair first, threading the emitted-signals list and
the `rsi_signals` table through `process_live_pair`.  Returns the emitted
signals and the updated table. -/
def analyze_rsi_signals (cfg : AnalyzerConfig) (symbol timeframe : String)
    (df : List Candle) (store : List SignalRec) (now : Int) :
    List SignalRec × List SignalRec :=
  if df.length < 5 then ([], store)
  else
    let st := (adjacentPairs (lastN 5 df)).foldl
      (process_live_pair cfg symbol timeframe now) ⟨[], store⟩
    (st.signals, st.store)

/-- One row of the signal list returned by `analyze_historical_rsi_signals`:
the live signal dict plus the `'historical': True` tag. -/
structure HistSignalRec where
  symbol : String
  timeframe : String
  signal_type : SignalType
  rsi_value : ℚ
  price : ℚ
  timestamp : Int
  previous_rsi : ℚ
  historical : Bool
deriving DecidableEq, Repr

/-- The historical classification of one adjacent RSI pair
(`analyze_historical_rsi_signals`, lines 169-189): a four-branch ordered
decision list, exit crossings checked before entry crossings. -/
def historical_signal_type (cfg : AnalyzerConfig) (previous_rsi current_rsi : ℚ) :
    Option SignalType :=
  if previous_rsi ≤ cfg.RSI_OVERSOLD ∧ current_rsi > cfg.RSI_OVERSOLD then
    some SignalType.oversold_exit
  else if previous_rsi ≥ cfg.RSI_OVERBOUGHT ∧ current_rsi < cfg.RSI_OVERBOUGHT then
    some SignalType.overbought_exit
  else if previous_rsi > cfg.RSI_OVERSOLD ∧ current_rsi ≤ cfg.RSI_OVERSOLD then
    some SignalType.oversold_enter
  else if previous_rsi < cfg.RSI_OVERBOUGHT ∧ current_rsi ≥ cfg.RSI_OVERBOUGHT then
    some SignalType.overbought_enter
  else none

/-- The historical signal (if any) produced from one adjacent candle pair:
skip on missing RSI, classify, and tag the dict with `'historical': True`. -/
def hist_pair_signal (cfg : AnalyzerConfig) (symbol timeframe : String)
    (pair : Candle × Candle) : Option HistSignalRec :=
  match pair.1.rsi, pair.2.rsi with
  | some prsi, some crsi =>
    match historical_signal_type cfg prsi crsi with
    | some k =>
      some { symbol := symbol
             timeframe := timeframe
             signal_type := k
             rsi_value := crsi
             price := pair.2.close
             timestamp := pair.2.ts
             previous_rsi := prsi
             historical := true }
    | none => none
  | _, _ => none

/-- `RSIAnalyzer.analyze_historical_rsi_signals`: restrict the frame to the
lookback horizon (`df[df.index >= now - days_back days]`), then walk every
adjacent pair of the restricted frame (`for i in range(1, len(historical_df))`)
collecting the classified crossings.  The method has access to the database
object but never calls it, so the `rsi_signals` table is threaded through
unchanged. -/
def analyze_historical_rsi_signals (cfg : AnalyzerConfig) (symbol timeframe : String)
    (df : List Candle) (days_back : Nat) (store : List SignalRec) (now : Int) :
    List HistSignalRec × List SignalRec :=
  if df.length < 2 then ([], store)
  else
    let start_time : Int := now - 86400 * (days_back : Int)
    let historical_df := df.filter (fun c => decide (start_time ≤ c.ts))
    if historical_df.length < 2 then ([], store)
    else
      ((adjacentPairs historical_df).foldl
        (fun acc pair =>
          match hist_pair_signal cfg symbol timeframe pair with
          | some s => acc ++ [s]
          | none => acc) [],
       store)

/-- `RSIDatabase.get_user_settings` on the embedded single-row table. -/
def get_user_settings (row : Option UserSettings) : Option UserSettings :=
  row

/-- The notify-worthy subset used by `should_notify`
(`notify_signals = ['oversold_enter', 'overbought_enter']`). -/
def notify_signals : List SignalType :=
  [SignalType.oversold_enter, SignalType.overbought_enter]

/-- `RSIAnalyzer.should_notify`: read the user settings; return `False` when
they are absent or `notifications_enabled` is false, else report whether the
signal kind is in `notify_signals`.  The function only decides; it performs no
dispatch. -/
def should_notify (user_settings : Option UserSettings) (sig : SignalRec) : Bool :=
  match get_user_settings user_settings with
  | none => false
  | some s =>
    if !s.notifications_enabled then false
    else notify_signals.contains sig.signal_type

/-- The configuration constants read by `web_interface.save_settings_api`
(`config.py`). -/
structure WebConfig where
  DEFAULT_SYMBOLS : List (List Char)
  DEFAULT_TIMEFRAME : String
  AVAILABLE_TIMEFRAMES : List String
  RSI_OVERSOLD : Int
  RSI_OVERBOUGHT : Int

/-- The JSON value found under the `symbols` key of the request body:
missing (the handler substitutes `DEFAULT_SYMBOLS`), present but not a JSON
array (the `isinstance(symbols, list)` check fails), or an array of strings. -/
inductive SymbolsField where
  | missing
  | not_a_list
  | array (xs : List (List Char))
deriving DecidableEq

/-- The request body of a settings write: the `symbols` and `timeframe` keys
(`data.get` substitutes the configured defaults for missing keys). -/
structure SettingsRequest where
  symbols : SymbolsField
  timeframe : Option String

/-- The distinct error responses of `save_settings_api`; each constructor
stands for one of the source's descriptive messages. -/
inductive SettingsError where
  | no_symbols
  | bad_symbol (s : List Char)
  | no_valid_symbols
  | bad_timeframe
  | save_failed
deriving DecidableEq

/-- The HTTP outcome of `save_settings_api`: `success` is the 200 response,
`failure` carries the descriptive error of the 400/500 response. -/
inductive ApiResponse where
  | success
  | failure (e : SettingsError)
deriving DecidableEq

/-- Python `str.strip()` on the whitespace characters relevant here. -/
def py_strip (s : List Char) : List Char :=
  let ws : Char → Bool := fun c => c == ' ' || c == '\t' || c == '\n' || c == '\r'
  ((s.dropWhile ws).reverse.dropWhile ws).reverse

/-- Python `str.upper()` restricted to ASCII letters. -/
def py_upper (s : List Char) : List Char :=
  s.map (fun c => if 'a' ≤ c ∧ c ≤ 'z' then Char.ofNat (c.toNat - 32) else c)

/-- Python `str.endswith(t)`. -/
def py_ends_with (s t : List Char) : Bool :=
  s.drop (s.length - t.length) == t

/-- The literal `'USDT'`. -/
def usdt_chars : List Char :=
  ['U', 'S', 'D', 'T']

/-- The symbol-validation loop of `save_settings_api`: strip and uppercase
each entry, skip entries that become empty, append `USDT` when missing, accept
entries of length at least 5 ending in `USDT`, and abort with the offending
symbol otherwise. -/
def validate_symbols (acc : List (List Char)) :
    List (List Char) → Except (List Char) (List (List Char))
  | [] => Except.ok acc
  | raw :: rest =>
    let s := py_upper (py_strip raw)
    if s.isEmpty then validate_symbols acc rest
    else
      let s2 := if py_ends_with s usdt_chars then s else s ++ usdt_chars
      if 5 ≤ s2.length ∧ py_ends_with s2 usdt_chars then
        validate_symbols (acc ++ [s2]) rest
      else Except.error s2

/-- `RSIDatabase.save_user_settings`: upsert the single `user_settings` row,
setting `symbols`, `timeframe` and the two thresholds; `notifications_enabled`
is not among the updated columns, so it keeps its stored value (schema default
`TRUE` on a fresh insert).  Returns the success flag and the new row. -/
def save_user_settings (row : Option UserSettings) (symbols : List (List Char))
    (timeframe : String) (rsi_oversold rsi_overbought : Int) :
    Bool × Option UserSettings :=
  let enabled := match row with
    | some s => s.notifications_enabled
    | none => true
  (true,
   some { symbols := symbols
          timeframe := timeframe
          rsi_oversold := rsi_oversold
          rsi_overbought := rsi_overbought
          notifications_enabled := enabled })

/-- `web_interface.save_settings_api`: validate the submitted symbol list and
timeframe, reject the write with a descriptive error on any validation
failure, and otherwise store the validated symbols and timeframe together with
the thresholds taken from the fixed configuration (`config.RSI_OVERSOLD`,
`config.RSI_OVERBOUGHT`), never from the request. -/
def save_settings_api (cfg : WebConfig) (req : SettingsRequest)
    (row : Option UserSettings) : ApiResponse × Option UserSettings :=
  let timeframe := match req.timeframe with
    | none => cfg.DEFAULT_TIMEFRAME
    | some t => t
  match (match req.symbols with
         | SymbolsField.missing => some cfg.DEFAULT_SYMBOLS
         | SymbolsField.not_a_list => none
         | SymbolsField.array xs => some xs) with
  | none => (ApiResponse.failure SettingsError.no_symbols, row)
  | some xs =>
    if xs.isEmpty then (ApiResponse.failure SettingsError.no_symbols, row)
    else
      match validate_symbols [] xs with
      | Except.error s => (ApiResponse.failure (SettingsError.bad_symbol s), row)
      | Except.ok valid =>
        if valid.isEmpty then (ApiResponse.failure SettingsError.no_valid_symbols, row)
        else if cfg.AVAILABLE_TIMEFRAMES.contains timeframe then
          let r := save_user_settings row valid timeframe cfg.RSI_OVERSOLD cfg.RSI_OVERBOUGHT
          if r.1 then (ApiResponse.success, r.2)
          else (ApiResponse.failure SettingsError.save_failed, r.2)
        else (ApiResponse.failure SettingsError.bad_timeframe, row)

/-! ### Helper lemmas about the store query -/

theorem length_insertTsDesc (x : SignalRec) (l : List SignalRec) :
    (insertTsDesc x l).length = l.length + 1 := by
  induction l with
  | nil => rfl
  | cons y ys ih =>
    simp only [insertTsDesc]
    split
    · simp [ih]
    · simp

theorem length_sortTsDesc (l : List SignalRec) :
    (sortTsDesc l).length = l.length := by
  induction l with
  | nil => rfl
  | cons y ys ih =>
    simp only [sortTsDesc, List.foldr_cons] at ih ⊢
    rw [length_insertTsDesc, ih]
    rfl

theorem any_insertTsDesc (x : SignalRec) (l : List SignalRec) (p : SignalRec → Bool) :
    (insertTsDesc x l).any p = (p x || l.any p) := by
  induction l with
  | nil => simp [insertTsDesc]
  | cons y ys ih =>
    simp only [insertTsDesc]
    split
    · simp only [List.any_cons, ih]
      cases p x <;> cases p y <;> simp
    · simp

theorem any_sortTsDesc (l : List SignalRec) (p : SignalRec → Bool) :
    (sortTsDesc l).any p = l.any p := by
  induction l with
  | nil => rfl
  | cons y ys ih =>
    simp only [sortTsDesc, List.foldr_cons] at ih ⊢
    rw [any_insertTsDesc, ih, List.any_cons]

/-- When at most `limit` rows match the filter, the `LIMIT` clause drops
nothing, so an existence scan over the query result is an existence scan over
the matching rows. -/
theorem any_get_recent_of_le (store : List SignalRec) (symbol timeframe : Option String)
    (seconds_back : Option Int) (now : Int) (limit : Nat) (p : SignalRec → Bool)
    (h : (store.filter (query_filter symbol timeframe seconds_back now)).length ≤ limit) :
    (get_recent_signals store symbol timeframe seconds_back now limit).any p =
      (store.filter (query_filter symbol timeframe seconds_back now)).any p := by
  unfold get_recent_signals
  rw [List.take_of_length_le (by rw [length_sortTsDesc]; exact h), any_sortTsDesc]

theorem query_filter_true_iff (symbol timeframe : String) (seconds_back now : Int)
    (e : SignalRec) :
    query_filter (some symbol) (some timeframe) (some seconds_back) now e = true ↔
      e.symbol = symbol ∧ e.timeframe = timeframe ∧ now - seconds_back ≤ e.timestamp := by
  simp [query_filter, and_assoc]

/-- A query restricted to a `(symbol, timeframe)` that has no rows at all
returns nothing. -/
theorem get_recent_of_no_rows (store : List SignalRec) (symbol timeframe : String)
    (seconds_back : Option Int) (now : Int) (limit : Nat)
    (h : store.filter (fun e => e.symbol == symbol && e.timeframe == timeframe) = []) :
    get_recent_signals store (some symbol) (some timeframe) seconds_back now limit = [] := by
  unfold get_recent_signals
  have hnil : store.filter (query_filter (some symbol) (some timeframe) seconds_back now) = [] := by
    rw [List.filter_eq_nil_iff] at h ⊢
    intro e he hq
    refine h e he ?_
    simp only [query_filter, Bool.and_eq_true] at hq
    simp [hq.1.1, hq.1.2]
  rw [hnil]
  simp [sortTsDesc]

/-! ### Helper lemmas about the live analysis loop -/

/-- The candidate crossing (if any) that one adjacent pair classifies to,
before any suppression: the pure content of one loop iteration of
`analyze_rsi_signals`. -/
def live_pair_signal (cfg : AnalyzerConfig) (symbol timeframe : String)
    (pair : Candle × Candle) : Option SignalRec :=
  match pair.1.rsi, pair.2.rsi with
  | some prsi, some crsi =>
    (live_signal_type cfg prsi crsi).map (fun k => mk_signal symbol timeframe k pair.2 prsi crsi)
  | _, _ => none

theorem live_pair_signal_timestamp (cfg : AnalyzerConfig) (symbol timeframe : String)
    (pair : Candle × Candle) (sig : SignalRec)
    (h : live_pair_signal cfg symbol timeframe pair = some sig) :
    sig.timestamp = pair.2.ts := by
  obtain ⟨⟨t1, p1, r1⟩, ⟨t2, p2, r2⟩⟩ := pair
  unfold live_pair_signal at h
  cases r1 with
  | none => exact absurd h (by simp)
  | some prsi =>
    cases r2 with
    | none => exact absurd h (by simp)
    | some crsi =>
      simp only [Option.map_eq_some'] at h
      rcases h with ⟨k, _, hk⟩
      rw [← hk]
      rfl

/-- An iteration whose pair classifies to nothing leaves the state alone. -/
theorem process_live_pair_of_none (cfg : AnalyzerConfig) (symbol timeframe : String)
    (now : Int) (st : LiveState) (pair : Candle × Candle)
    (h : live_pair_signal cfg symbol timeframe pair = none) :
    process_live_pair cfg symbol timeframe now st pair = st := by
  obtain ⟨⟨t1, p1, r1⟩, ⟨t2, p2, r2⟩⟩ := pair
  unfold live_pair_signal at h
  unfold process_live_pair
  cases r1 with
  | none => rfl
  | some prsi =>
    cases r2 with
    | none => rfl
    | some crsi =>
      dsimp only at h ⊢
      rcases hk : live_signal_type cfg prsi crsi with _ | k
      · split <;> rfl
      · rw [hk] at h
        simp at h

/-- Every iteration either leaves the state alone or emits and persists the
pair's candidate. -/
theorem process_live_pair_cases (cfg : AnalyzerConfig) (symbol timeframe : String)
    (now : Int) (st : LiveState) (pair : Candle × Candle) :
    process_live_pair cfg symbol timeframe now st pair = st ∨
      ∃ sig : SignalRec, live_pair_signal cfg symbol timeframe pair = some sig ∧
        process_live_pair cfg symbol timeframe now st pair =
          ⟨st.signals ++ [sig], st.store ++ [sig]⟩ := by
  obtain ⟨⟨t1, p1, r1⟩, ⟨t2, p2, r2⟩⟩ := pair
  unfold process_live_pair
  cases r1 with
  | none => exact Or.inl rfl
  | some prsi =>
    cases r2 with
    | none => exact Or.inl rfl
    | some crsi =>
      dsimp only
      by_cases hw : was_signal_processed st.store symbol timeframe t2 now = true
      · rw [if_pos hw]
        exact Or.inl rfl
      · rw [if_neg hw]
        rcases hk : live_signal_type cfg prsi crsi with _ | k
        · exact Or.inl rfl
        · dsimp only
          by_cases hd :
              is_duplicate_signal st.store
                (mk_signal symbol timeframe k ⟨t2, p2, some crsi⟩ prsi crsi) now = true
          · rw [if_pos hd]
            exact Or.inl rfl
          · rw [if_neg hd]
            refine Or.inr ⟨mk_signal symbol timeframe k ⟨t2, p2, some crsi⟩ prsi crsi, ?_, rfl⟩
            simp [live_pair_signal, hk]

/-- An iteration whose candle was already processed leaves the state alone. -/
theorem process_live_pair_of_processed (cfg : AnalyzerConfig) (symbol timeframe : String)
    (now : Int) (st : LiveState) (pair : Candle × Candle)
    (h : was_signal_processed st.store symbol timeframe pair.2.ts now = true) :
    process_live_pair cfg symbol timeframe now st pair = st := by
  obtain ⟨⟨t1, p1, r1⟩, ⟨t2, p2, r2⟩⟩ := pair
  unfold process_live_pair
  cases r1 with
  | none => rfl
  | some prsi =>
    cases r2 with
    | none => rfl
    | some crsi =>
      dsimp only at h ⊢
      rw [if_pos h]

/-- A same-`(symbol, timeframe)` record within 60 s of the candle and inside
the 2-hour window makes the processed check fire (provided the window holds at
most 100 rows, so the `LIMIT` drops nothing). -/
theorem was_processed_of_near (store : List SignalRec) (symbol timeframe : String)
    (ts now : Int) (e : SignalRec) (he : e ∈ store) (hsym : e.symbol = symbol)
    (htf : e.timeframe = timeframe) (hwin : now - 7200 ≤ e.timestamp)
    (hprox : (e.timestamp - ts).natAbs < 60)
    (hcount : (store.filter (query_filter (some symbol) (some timeframe) (some 7200) now)).length ≤ 100) :
    was_signal_processed store symbol timeframe ts now = true := by
  unfold was_signal_processed processed_scan
  rw [any_get_recent_of_le _ _ _ _ _ _ _ hcount, List.any_eq_true]
  refine ⟨e, List.mem_filter.mpr ⟨he, ?_⟩, by simpa using hprox⟩
  exact (query_filter_true_iff symbol timeframe 7200 now e).mpr ⟨hsym, htf, hwin⟩

/-- Folding pairs through iterations that all classify to nothing leaves the
state alone. -/
theorem foldl_live_of_all_none (cfg : AnalyzerConfig) (symbol timeframe : String) (now : Int) :
    ∀ (pairs : List (Candle × Candle)) (st : LiveState),
      (∀ q ∈ pairs, live_pair_signal cfg symbol timeframe q = none) →
      pairs.foldl (process_live_pair cfg symbol timeframe now) st = st := by
  intro pairs
  induction pairs with
  | nil => intro st _; rfl
  | cons pair rest ih =>
    intro st hall
    simp only [List.foldl_cons]
    rw [process_live_pair_of_none _ _ _ _ _ _ (hall pair (by simp))]
    exact ih st (fun q hq => hall q (by simp [hq]))

/-- Signals already emitted stay emitted through the rest of the loop. -/
theorem mem_signals_foldl_live (cfg : AnalyzerConfig) (symbol timeframe : String) (now : Int) :
    ∀ (pairs : List (Candle × Candle)) (st : LiveState) (s : SignalRec),
      s ∈ st.signals →
      s ∈ (pairs.foldl (process_live_pair cfg symbol timeframe now) st).signals := by
  intro pairs
  induction pairs with
  | nil => intro st s hs; exact hs
  | cons pair rest ih =>
    intro st s hs
    simp only [List.foldl_cons]
    rcases process_live_pair_cases cfg symbol timeframe now st pair with heq | ⟨sig, _, heq⟩
    · rw [heq]; exact ih st s hs
    · rw [heq]
      exact ih _ s (by simp [hs])

/-- Records already persisted stay persisted through the rest of the loop. -/
theorem mem_store_foldl_live (cfg : AnalyzerConfig) (symbol timeframe : String) (now : Int) :
    ∀ (pairs : List (Candle × Candle)) (st : LiveState) (s : SignalRec),
      s ∈ st.store →
      s ∈ (pairs.foldl (process_live_pair cfg symbol timeframe now) st).store := by
  intro pairs
  induction pairs with
  | nil => intro st s hs; exact hs
  | cons pair rest ih =>
    intro st s hs
    simp only [List.foldl_cons]
    rcases process_live_pair_cases cfg symbol timeframe now st pair with heq | ⟨sig, _, heq⟩
    · rw [heq]; exact ih st s hs
    · rw [heq]
      exact ih _ s (by simp [hs])

/-- The loop only ever appends the signals it emits to the table it was given:
if the table is the base plus the emitted signals, that stays true. -/
theorem store_signals_foldl_live (cfg : AnalyzerConfig) (symbol timeframe : String) (now : Int) :
    ∀ (pairs : List (Candle × Candle)) (st : LiveState) (base : List SignalRec),
      st.store = base ++ st.signals →
      (pairs.foldl (process_live_pair cfg symbol timeframe now) st).store =
        base ++ (pairs.foldl (process_live_pair cfg symbol timeframe now) st).signals := by
  intro pairs
  induction pairs with
  | nil => intro st base h; exact h
  | cons pair rest ih =>
    intro st base h
    simp only [List.foldl_cons]
    rcases process_live_pair_cases cfg symbol timeframe now st pair with heq | ⟨sig, _, heq⟩
    · rw [heq]; exact ih st base h
    · rw [heq]
      exact ih _ base (by simp [h])

/-- Each loop iteration emits at most one signal. -/
theorem length_signals_foldl_live (cfg : AnalyzerConfig) (symbol timeframe : String) (now : Int) :
    ∀ (pairs : List (Candle × Candle)) (st : LiveState),
      (pairs.foldl (process_live_pair cfg symbol timeframe now) st).signals.length ≤
        st.signals.length + pairs.length := by
  intro pairs
  induction pairs with
  | nil => intro st; simp
  | cons pair rest ih =>
    intro st
    simp only [List.foldl_cons, List.length_cons]
    rcases process_live_pair_cases cfg symbol timeframe now st pair with heq | ⟨sig, _, heq⟩
    · rw [heq]
      have := ih st
      omega
    · rw [heq]
      have := ih ⟨st.signals ++ [sig], st.store ++ [sig]⟩
      simp only [List.length_append, List.length_cons, List.length_nil] at this
      omega

theorem length_adjacentPairs : ∀ l : List Candle, (adjacentPairs l).length = l.length - 1
  | [] => rfl
  | [_] => rfl
  | a :: b :: rest => by
    have ih := length_adjacentPairs (b :: rest)
    simp only [adjacentPairs, List.length_cons] at ih ⊢
    omega

theorem adjacentPairs_of_short (l : List Candle) (h : l.length ≤ 1) : adjacentPairs l = [] := by
  match l, h with
  | [], _ => rfl
  | [_], _ => rfl

/-- An iteration over a store holding no `(symbol, timeframe)` rows at all
emits and persists its pair's candidate. -/
theorem process_live_pair_emit (cfg : AnalyzerConfig) (symbol timeframe : String)
    (now : Int) (st : LiveState) (pair : Candle × Candle) (sig : SignalRec)
    (hstore : st.store.filter (fun e => e.symbol == symbol && e.timeframe == timeframe) = [])
    (hsig : live_pair_signal cfg symbol timeframe pair = some sig) :
    process_live_pair cfg symbol timeframe now st pair =
      ⟨st.signals ++ [sig], st.store ++ [sig]⟩ := by
  obtain ⟨⟨t1, p1, r1⟩, ⟨t2, p2, r2⟩⟩ := pair
  unfold live_pair_signal at hsig
  unfold process_live_pair
  cases r1 with
  | none => exact absurd hsig (by simp)
  | some prsi =>
    cases r2 with
    | none => exact absurd hsig (by simp)
    | some crsi =>
      simp only [Option.map_eq_some'] at hsig
      obtain ⟨k, hk, hmk⟩ := hsig
      have hwp : was_signal_processed st.store symbol timeframe t2 now = false := by
        unfold was_signal_processed
        rw [get_recent_of_no_rows _ _ _ _ _ _ hstore]
        rfl
      have hdp : is_duplicate_signal st.store
          (mk_signal symbol timeframe k ⟨t2, p2, some crsi⟩ prsi crsi) now = false := by
        unfold is_duplicate_signal
        dsimp only [mk_signal]
        rw [get_recent_of_no_rows _ _ _ _ _ _ hstore]
        rfl
      dsimp only
      rw [if_neg (by rw [hwp]; exact Bool.false_ne_true), hk]
      dsimp only
      rw [if_neg (by rw [hdp]; exact Bool.false_ne_true), hmk]
      rfl

/-- Loop-level form of the proximity gate: starting from the original table
plus at most `4 - pairs.length` appended signals, and given a persisted
`(symbol, timeframe)` record within the 2-hour window and within 60 s of the
instant `t`, no signal emitted by the remaining iterations carries
timestamp `t`. -/
theorem foldl_skip_near (cfg : AnalyzerConfig) (symbol timeframe : String) (now t : Int)
    (store0 : List SignalRec) (e : SignalRec) (he : e ∈ store0) (hsym : e.symbol = symbol)
    (htf : e.timeframe = timeframe) (hwin : now - 7200 ≤ e.timestamp)
    (hprox : (e.timestamp - t).natAbs < 60)
    (hcount : (store0.filter (query_filter (some symbol) (some timeframe) (some 7200) now)).length ≤ 96) :
    ∀ (pairs : List (Candle × Candle)) (st : LiveState) (ext : List SignalRec),
      st.store = store0 ++ ext → ext.length + pairs.length ≤ 4 →
      (∀ s ∈ st.signals, s.timestamp ≠ t) →
      ∀ s ∈ (pairs.foldl (process_live_pair cfg symbol timeframe now) st).signals,
        s.timestamp ≠ t := by
  intro pairs
  induction pairs with
  | nil => intro st ext hst hlen hsig; exact hsig
  | cons pair rest ih =>
    intro st ext hst hlen hsig
    simp only [List.foldl_cons]
    by_cases hts : pair.2.ts = t
    · have hc2 : (st.store.filter
          (query_filter (some symbol) (some timeframe) (some 7200) now)).length ≤ 100 := by
        rw [hst, List.filter_append, List.length_append]
        have hext := List.length_filter_le
          (query_filter (some symbol) (some timeframe) (some 7200) now) ext
        simp only [List.length_cons] at hlen
        omega
      have hproc : was_signal_processed st.store symbol timeframe pair.2.ts now = true := by
        refine was_processed_of_near st.store symbol timeframe pair.2.ts now e ?_ hsym htf hwin
          (by rw [hts]; exact hprox) hc2
        rw [hst]
        exact List.mem_append_left _ he
      rw [process_live_pair_of_processed _ _ _ _ _ _ hproc]
      refine ih st ext hst ?_ hsig
      simp only [List.length_cons] at hlen
      omega
    · rcases process_live_pair_cases cfg symbol timeframe now st pair with heq | ⟨sig, hsg, heq⟩
      · rw [heq]
        refine ih st ext hst ?_ hsig
        simp only [List.length_cons] at hlen
        omega
      · rw [heq]
        refine ih _ (ext ++ [sig]) (by simp [hst]) ?_ ?_
        · simp only [List.length_append, List.length_cons, List.length_nil] at hlen ⊢
          omega
        · intro s hs
          rcases List.mem_append.mp hs with h1 | h2
          · exact hsig s h1
          · have hseq : s = sig := by simpa using h2
            rw [hseq, live_pair_signal_timestamp _ _ _ _ _ hsg]
            exact hts

/-- The append-accumulating fold of the historical loop collects exactly the
classified crossings in order. -/
theorem foldl_hist_filterMap (f : Candle × Candle → Option HistSignalRec) :
    ∀ (l : List (Candle × Candle)) (acc : List HistSignalRec),
      l.foldl (fun a pair => match f pair with | some s => a ++ [s] | none => a) acc =
        acc ++ l.filterMap f := by
  intro l
  induction l with
  | nil => intro acc; simp
  | cons pair rest ih =>
    intro acc
    simp only [List.foldl_cons, List.filterMap_cons]
    rcases hf : f pair with _ | s
    · rw [ih]
    · rw [ih]
      simp

theorem signalType_beq_iff (a b : SignalType) : (a == b) = true ↔ a = b := by
  cases a <;> cases b <;> decide

theorem hist_pair_signal_historical (cfg : AnalyzerConfig) (symbol timeframe : String)
    (pair : Candle × Candle) (s : HistSignalRec)
    (h : hist_pair_signal cfg symbol timeframe pair = some s) : s.historical = true := by
  obtain ⟨⟨t1, p1, r1⟩, ⟨t2, p2, r2⟩⟩ := pair
  unfold hist_pair_signal at h
  cases r1 with
  | none => exact absurd h (by simp)
  | some prsi =>
    cases r2 with
    | none => exact absurd h (by simp)
    | some crsi =>
      dsimp only at h
      rcases hk : historical_signal_type cfg prsi crsi with _ | k <;> rw [hk] at h
      · exact absurd h (by simp)
      · simp only [Option.some_inj] at h
        rw [← h]

/-! ### Concrete inputs used by the witnesses and counterexamples -/

/-- The default thresholds of `config.py`:
`RSI_OVERSOLD = 30`, `RSI_OVERBOUGHT = 70`. -/
def default_config : AnalyzerConfig :=
  { RSI_OVERSOLD := 30, RSI_OVERBOUGHT := 70 }

/-- A candle with unit price and the given timestamp and RSI. -/
def demo_candle (ts : Int) (r : ℚ) : Candle :=
  { ts := ts, close := 1, rsi := some r }

/-- A 5-candle frame whose RSI series 50, 50, 50, 45, 28 crosses the oversold
threshold only at the final pair (candle timestamp 1200). -/
def demo_df : List Candle :=
  [demo_candle 0 50, demo_candle 300 50, demo_candle 600 50,
   demo_candle 900 45, demo_candle 1200 28]

/-- The signal that `demo_df` produces at its final pair. -/
def demo_sig : SignalRec :=
  { symbol := "BTCUSDT", timeframe := "5m", signal_type := SignalType.oversold_enter,
    rsi_value := 28, price := 1, timestamp := 1200, previous_rsi := 45 }

/-- A persisted `oversold_enter` record for BTCUSDT/5m at timestamp 1000. -/
def demo_e0 : SignalRec :=
  { symbol := "BTCUSDT", timeframe := "5m", signal_type := SignalType.oversold_enter,
    rsi_value := 28, price := 1, timestamp := 1000, previous_rsi := 45 }

/-- A frame crossing oversold at candle timestamp 1000 (produces `demo_e0`). -/
def demo_df_t0 : List Candle :=
  [demo_candle 400 50, demo_candle 550 50, demo_candle 700 50,
   demo_candle 850 45, demo_candle 1000 28]

/-- A frame crossing oversold at candle timestamp 1090 (= 1000 + 90 s). -/
def demo_df_t90 : List Candle :=
  [demo_candle 490 50, demo_candle 640 50, demo_candle 790 50,
   demo_candle 940 45, demo_candle 1090 28]

/-- The record the analyzer persists for the crossing at timestamp 1090 when
it is not suppressed. -/
def demo_sig_t90 : SignalRec :=
  { symbol := "BTCUSDT", timeframe := "5m", signal_type := SignalType.oversold_enter,
    rsi_value := 28, price := 1, timestamp := 1090, previous_rsi := 45 }

/-- A frame crossing oversold at candle timestamp 1030 (within 60 s of
`demo_e0`). -/
def demo_df_t30 : List Candle :=
  [demo_candle 430 50, demo_candle 580 50, demo_candle 730 50,
   demo_candle 880 45, demo_candle 1030 28]

/-! ### The claims -/

/-- Claim C1, amended.  In live mode the Detector implements only the two
entry rows of the §4.2 table: for every non-missing pair and thresholds
low < high it emits `oversold_enter` iff prev > low and curr ≤ low,
`overbought_enter` iff prev < high and curr ≥ high, and never an exit kind;
the exit rows of the table (in particular `oversold_exit` for the series
[29, 31] with low = 30) are implemented only by the historical (backfill)
classifier. -/
theorem claim_C1_live_classification (cfg : AnalyzerConfig) (p c : ℚ)
    (h : cfg.RSI_OVERSOLD < cfg.RSI_OVERBOUGHT) :
    (live_signal_type cfg p c = some SignalType.oversold_enter ↔
      p > cfg.RSI_OVERSOLD ∧ c ≤ cfg.RSI_OVERSOLD) ∧
    (live_signal_type cfg p c = some SignalType.overbought_enter ↔
      p < cfg.RSI_OVERBOUGHT ∧ c ≥ cfg.RSI_OVERBOUGHT) ∧
    live_signal_type cfg p c ≠ some SignalType.oversold_exit ∧
    live_signal_type cfg p c ≠ some SignalType.overbought_exit ∧
    (historical_signal_type cfg p c = some SignalType.oversold_exit ↔
      p ≤ cfg.RSI_OVERSOLD ∧ c > cfg.RSI_OVERSOLD) := by
  unfold live_signal_type historical_signal_type
  split_ifs <;> simp_all <;> intros <;> rename_i hA hB hC <;> linarith [hA.1, hA.2]

/-- Witness for C1: at thresholds 30/70 the pair (29, 31) satisfies the
`oversold_exit` row, which the historical classifier emits. -/
theorem claim_C1_live_classification_witness :
    historical_signal_type default_config 29 31 = some SignalType.oversold_exit ∧
    live_signal_type default_config 29 31 = none :=
  ⟨(claim_C1_live_classification default_config 29 31 (by decide)).2.2.2.2.mpr
      (by decide), by decide⟩

/-- Counterexample to C1 as stated: the live series [29, 31] with low = 30
yields no signal in live mode, not `oversold_exit`. -/
theorem claim_C1_counterexample :
    live_signal_type default_config 29 31 ≠ some SignalType.oversold_exit ∧
    live_signal_type default_config 29 31 = none := by
  decide

/-- Claim C6.  Both duplicate-suppression checks fail open: when the store
query errors, `_was_signal_processed` and `_is_duplicate_signal` both return
false (candidate treated as not-duplicate); when it succeeds they scan the
returned rows. -/
theorem claim_C6_fail_open (msg : String) (ts : Int) (k : SignalType)
    (recent : List SignalRec) :
    was_signal_processed_try (Except.error msg) ts = false ∧
    is_duplicate_signal_try (Except.error msg) k = false ∧
    was_signal_processed_try (Except.ok recent) ts = processed_scan recent ts ∧
    is_duplicate_signal_try (Except.ok recent) k = duplicate_scan recent k :=
  ⟨rfl, rfl, rfl, rfl⟩

/-- Claim C8.  The Notification Policy is a pure decision: with settings
present it returns `notifications_enabled AND (kind is an entry kind)` — so
false whenever notifications are disabled, and false for exit kinds — and with
settings absent it returns false. -/
theorem claim_C8_notification_policy (s : UserSettings) (sig : SignalRec) :
    should_notify (some s) sig =
      (s.notifications_enabled &&
        (sig.signal_type == SignalType.oversold_enter ||
         sig.signal_type == SignalType.overbought_enter)) ∧
    should_notify none sig = false := by
  obtain ⟨ssyms, stf, slo, shi, sen⟩ := s
  obtain ⟨gsym, gtf, gk, grv, gp, gts, gprv⟩ := sig
  exact ⟨by cases sen <;> cases gk <;> rfl, rfl⟩

/-- Claim C2, amended.  The same-kind suppression window is anchored at the
query time, not at the candidate: a candidate is a duplicate iff the store
holds an event of the same kind for the same `(symbol, timeframe)` with
timestamp at least `now - 612` seconds (hours_back = 0.17, assuming at most
100 rows match the query so the `LIMIT` drops nothing).  In the scenario of
the claim — detections at T0 and T0+90 s queried at T0+90 s — the second
candidate is suppressed and the store keeps exactly one record; but two
same-kind events bare seconds apart can both be persisted when the query time
is later than the first event's timestamp plus 612 s. -/
theorem claim_C2_duplicate_window (store : List SignalRec) (sig : SignalRec) (now : Int)
    (hcount : (store.filter
      (query_filter (some sig.symbol) (some sig.timeframe) (some 612) now)).length ≤ 100) :
    is_duplicate_signal store sig now = true ↔
      ∃ e ∈ store, e.symbol = sig.symbol ∧ e.timeframe = sig.timeframe ∧
        e.signal_type = sig.signal_type ∧ now - 612 ≤ e.timestamp := by
  unfold is_duplicate_signal duplicate_scan
  rw [any_get_recent_of_le _ _ _ _ _ _ _ hcount, List.any_eq_true]
  constructor
  · rintro ⟨e, hmem, hbeq⟩
    have hq := List.mem_filter.mp hmem
    have hqf := (query_filter_true_iff _ _ _ _ _).mp hq.2
    exact ⟨e, hq.1, hqf.1, hqf.2.1, (signalType_beq_iff _ _).mp hbeq, hqf.2.2⟩
  · rintro ⟨e, hmem, h1, h2, h3, h4⟩
    refine ⟨e, List.mem_filter.mpr ⟨hmem, (query_filter_true_iff _ _ _ _ _).mpr ⟨h1, h2, h4⟩⟩, ?_⟩
    exact (signalType_beq_iff _ _).mpr h3

/-- Witness for C2: the scenario of the claim.  The first cycle (queried at
T0 = 1000) persists `demo_e0`; in the second cycle (queried at T0+90) the
candidate of the same kind is a duplicate by the amended characterization, the
analyzer emits nothing, and the store still holds exactly one record. -/
theorem claim_C2_duplicate_window_witness :
    is_duplicate_signal [demo_e0]
      (mk_signal "BTCUSDT" "5m" SignalType.oversold_enter (demo_candle 1090 28) 45 28) 1090 = true ∧
    analyze_rsi_signals default_config "BTCUSDT" "5m" demo_df_t0 [] 1000 = ([demo_e0], [demo_e0]) ∧
    analyze_rsi_signals default_config "BTCUSDT" "5m" demo_df_t90 [demo_e0] 1090 = ([], [demo_e0]) := by
  refine ⟨?_, by decide, by decide⟩
  exact (claim_C2_duplicate_window [demo_e0] _ 1090 (by decide)).mpr
    ⟨demo_e0, by decide, by decide, by decide, by decide, by decide⟩

/-- Counterexample to C2 as stated: with a persisted `oversold_enter` at
timestamp 1000 and the second cycle queried at time 2500, the candidate at
timestamp 1090 — only 90 s after the persisted event, inside any of the
claim's windows — is *not* suppressed, and the store ends up holding two
events of the same kind for the same pair 90 s apart. -/
theorem claim_C2_counterexample :
    analyze_rsi_signals default_config "BTCUSDT" "5m" demo_df_t90 [demo_e0] 2500 =
      ([demo_sig_t90], [demo_e0, demo_sig_t90]) ∧
    demo_e0.signal_type = demo_sig_t90.signal_type ∧
    demo_e0.symbol = demo_sig_t90.symbol ∧
    demo_e0.timeframe = demo_sig_t90.timeframe ∧
    (demo_sig_t90.timestamp - demo_e0.timestamp).natAbs < 180 := by
  decide

/-- Claim C9.  Backfill is read-only: the historical analysis leaves the
signals table untouched, never consults the duplicate checks, and returns
exactly the crossings classified over every adjacent pair of the
lookback-restricted frame, every one tagged `historical = true`. -/
theorem claim_C9_backfill_read_only (cfg : AnalyzerConfig) (symbol timeframe : String)
    (df : List Candle) (days_back : Nat) (store : List SignalRec) (now : Int) :
    (analyze_historical_rsi_signals cfg symbol timeframe df days_back store now).2 = store ∧
    (analyze_historical_rsi_signals cfg symbol timeframe df days_back store now).1 =
      (adjacentPairs (df.filter
        (fun c => decide (now - 86400 * (days_back : Int) ≤ c.ts)))).filterMap
        (hist_pair_signal cfg symbol timeframe) ∧
    ∀ s ∈ (analyze_historical_rsi_signals cfg symbol timeframe df days_back store now).1,
      s.historical = true := by
  have h2 : (analyze_historical_rsi_signals cfg symbol timeframe df days_back store now).1 =
      (adjacentPairs (df.filter
        (fun c => decide (now - 86400 * (days_back : Int) ≤ c.ts)))).filterMap
        (hist_pair_signal cfg symbol timeframe) := by
    unfold analyze_historical_rsi_signals
    split
    · rename_i hlt
      rw [adjacentPairs_of_short, List.filterMap_nil]
      have := List.length_filter_le
        (fun c => decide (now - 86400 * (days_back : Int) ≤ c.ts)) df
      omega
    · dsimp only
      split
      · rename_i hlt
        rw [adjacentPairs_of_short, List.filterMap_nil]
        omega
      · dsimp only
        rw [foldl_hist_filterMap]
        simp
  refine ⟨?_, h2, ?_⟩
  · unfold analyze_historical_rsi_signals
    split
    · rfl
    · dsimp only
      split <;> rfl
  · intro s hs
    rw [h2] at hs
    rcases List.mem_filterMap.mp hs with ⟨pair, _, hp⟩
    exact hist_pair_signal_historical cfg symbol timeframe pair s hp

/-- Claim C3, amended.  Live mode skips frames with fewer than 5 candles
silently (even when the final pair crosses a threshold), it depends only on
the last 5 candles of the frame (the 4 final adjacent pairs), and it yields at
most 4 candidates per call — not at most one. -/
theorem claim_C3_live_window (cfg : AnalyzerConfig) (symbol timeframe : String)
    (df : List Candle) (store : List SignalRec) (now : Int) :
    (df.length < 5 → analyze_rsi_signals cfg symbol timeframe df store now = ([], store)) ∧
    analyze_rsi_signals cfg symbol timeframe df store now =
      analyze_rsi_signals cfg symbol timeframe (lastN 5 df) store now ∧
    (analyze_rsi_signals cfg symbol timeframe df store now).1.length ≤ 4 := by
  refine ⟨?_, ?_, ?_⟩
  · intro h
    unfold analyze_rsi_signals
    rw [if_pos h]
  · by_cases h5 : df.length < 5
    · have hdf : lastN 5 df = df := by
        unfold lastN
        rw [show df.length - 5 = 0 from by omega, List.drop_zero]
      rw [hdf]
    · have hlast : lastN 5 (lastN 5 df) = lastN 5 df := by
        unfold lastN
        rw [List.length_drop,
          show df.length - (df.length - 5) - 5 = 0 from by omega, List.drop_zero]
      have h5l : ¬ (lastN 5 df).length < 5 := by
        unfold lastN
        rw [List.length_drop]
        omega
      unfold analyze_rsi_signals
      rw [if_neg h5, if_neg h5l, hlast]
  · unfold analyze_rsi_signals
    split
    · simp
    · dsimp only
      have hb := length_signals_foldl_live cfg symbol timeframe now
        (adjacentPairs (lastN 5 df)) ⟨[], store⟩
      rw [length_adjacentPairs] at hb
      have hl : (lastN 5 df).length ≤ 5 := by
        unfold lastN
        rw [List.length_drop]
        omega
      simp only [List.length_nil, Nat.zero_add] at hb
      omega

/-- Witness for C3: a 2-candle frame whose final pair crosses the oversold
threshold is skipped (hypothesis `length < 5` discharged at a concrete
frame), while a 5-candle frame can emit 2 candidates in one call. -/
theorem claim_C3_live_window_witness :
    analyze_rsi_signals default_config "BTCUSDT" "5m"
      [demo_candle 0 45, demo_candle 300 28] [] 300 = ([], []) ∧
    (live_pair_signal default_config "BTCUSDT" "5m"
      (demo_candle 0 45, demo_candle 300 28)).isSome = true :=
  ⟨(claim_C3_live_window default_config "BTCUSDT" "5m"
      [demo_candle 0 45, demo_candle 300 28] [] 300).1 (by decide), by decide⟩

/-- Counterexample to C3 as stated: a 2-point window whose final pair
satisfies a crossing condition produces no candidate (the analyzer needs at
least 5 candles), and a single call can produce 2 candidates, not at most
one. -/
theorem claim_C3_counterexample :
    (live_pair_signal default_config "BTCUSDT" "5m"
      (demo_candle 0 45, demo_candle 300 28)).isSome = true ∧
    analyze_rsi_signals default_config "BTCUSDT" "5m"
      [demo_candle 0 45, demo_candle 300 28] [] 300 = ([], []) ∧
    (analyze_rsi_signals default_config "BTCUSDT" "5m"
      [demo_candle 0 50, demo_candle 300 45, demo_candle 600 28,
       demo_candle 900 69, demo_candle 1200 71] [] 1200).1.length = 2 := by
  decide

/-- Claim C4, amended.  The live Detector is stateful, not pure: it reads the
store for suppression and appends every emitted candidate to it — the table
after a call is exactly the table before it plus the emitted signals. -/
theorem claim_C4_detector_stateful (cfg : AnalyzerConfig) (symbol timeframe : String)
    (df : List Candle) (store : List SignalRec) (now : Int) :
    (analyze_rsi_signals cfg symbol timeframe df store now).2 =
      store ++ (analyze_rsi_signals cfg symbol timeframe df store now).1 := by
  unfold analyze_rsi_signals
  split
  · simp
  · exact store_signals_foldl_live cfg symbol timeframe now _ ⟨[], store⟩ store (by simp)

/-- Counterexample to C4 as stated: feeding the same window twice is not
idempotent — the first call emits the crossing and persists it, after which
the second call on the grown store emits nothing. -/
theorem claim_C4_counterexample :
    analyze_rsi_signals default_config "BTCUSDT" "5m" demo_df [] 1200 =
      ([demo_sig], [demo_sig]) ∧
    analyze_rsi_signals default_config "BTCUSDT" "5m" demo_df [demo_sig] 1200 =
      ([], [demo_sig]) := by
  decide

/-- Claim C5.  For a `(symbol, timeframe)` pair with no persisted rows at all
(every store query returns the empty list), the first candidate crossing of
the live pass is never classified as a duplicate: it is emitted and
persisted. -/
theorem claim_C5_first_event_emitted (cfg : AnalyzerConfig) (symbol timeframe : String)
    (df : List Candle) (store : List SignalRec) (now : Int)
    (pre post : List (Candle × Candle)) (pair : Candle × Candle) (sig : SignalRec)
    (hstore : store.filter (fun e => e.symbol == symbol && e.timeframe == timeframe) = [])
    (h5 : 5 ≤ df.length)
    (hsplit : adjacentPairs (lastN 5 df) = pre ++ pair :: post)
    (hpre : ∀ q ∈ pre, live_pair_signal cfg symbol timeframe q = none)
    (hsig : live_pair_signal cfg symbol timeframe pair = some sig) :
    sig ∈ (analyze_rsi_signals cfg symbol timeframe df store now).1 ∧
    sig ∈ (analyze_rsi_signals cfg symbol timeframe df store now).2 := by
  unfold analyze_rsi_signals
  rw [if_neg (by omega)]
  dsimp only
  rw [hsplit, List.foldl_append]
  rw [foldl_live_of_all_none cfg symbol timeframe now pre ⟨[], store⟩ hpre]
  simp only [List.foldl_cons]
  rw [process_live_pair_emit cfg symbol timeframe now ⟨[], store⟩ pair sig hstore hsig]
  constructor
  · exact mem_signals_foldl_live cfg symbol timeframe now post _ sig (by simp)
  · exact mem_store_foldl_live cfg symbol timeframe now post _ sig (by simp)

/-- Witness for C5: on an empty store, the crossing at the final pair of
`demo_df` is emitted and persisted. -/
theorem claim_C5_first_event_emitted_witness :
    demo_sig ∈ (analyze_rsi_signals default_config "BTCUSDT" "5m" demo_df [] 1200).1 ∧
    demo_sig ∈ (analyze_rsi_signals default_config "BTCUSDT" "5m" demo_df [] 1200).2 :=
  claim_C5_first_event_emitted default_config "BTCUSDT" "5m" demo_df [] 1200
    [(demo_candle 0 50, demo_candle 300 50), (demo_candle 300 50, demo_candle 600 50),
     (demo_candle 600 50, demo_candle 900 45)]
    [] (demo_candle 900 45, demo_candle 1200 28) demo_sig
    (by decide) (by decide) (by decide) (by decide) (by decide)

/-- Claim C10.  The implicit any-kind proximity gate: when some event for the
same `(symbol, timeframe)` is persisted inside the 2-hour query window and
lies within 60 s of the instant `t`, the live pass emits no signal with
timestamp `t` and persists nothing at timestamp `t`, regardless of the
persisted event's kind (the bound on the 2-hour row count keeps the `LIMIT`
from dropping rows; 4 appends per call keep it under 100). -/
theorem claim_C10_proximity_gate (cfg : AnalyzerConfig) (symbol timeframe : String)
    (df : List Candle) (store : List SignalRec) (now t : Int) (e : SignalRec)
    (he : e ∈ store) (hsym : e.symbol = symbol) (htf : e.timeframe = timeframe)
    (hwin : now - 7200 ≤ e.timestamp) (hprox : (e.timestamp - t).natAbs < 60)
    (hcount : (store.filter
      (query_filter (some symbol) (some timeframe) (some 7200) now)).length ≤ 96) :
    ((analyze_rsi_signals cfg symbol timeframe df store now).1.all
      (fun s => s.timestamp != t)) = true ∧
    (analyze_rsi_signals cfg symbol timeframe df store now).2.filter
      (fun s => s.timestamp == t) = store.filter (fun s => s.timestamp == t) := by
  have hall : ∀ s ∈ (analyze_rsi_signals cfg symbol timeframe df store now).1,
      s.timestamp ≠ t := by
    unfold analyze_rsi_signals
    split
    · intro s hs
      simp at hs
    · dsimp only
      refine foldl_skip_near cfg symbol timeframe now t store e he hsym htf hwin hprox hcount
        (adjacentPairs (lastN 5 df)) ⟨[], store⟩ [] (by simp) ?_ (by simp)
      rw [length_adjacentPairs]
      unfold lastN
      rw [List.length_drop]
      simp only [List.length_nil]
      omega
  constructor
  · rw [List.all_eq_true]
    intro s hs
    simpa using hall s hs
  · have hst : (analyze_rsi_signals cfg symbol timeframe df store now).2 =
        store ++ (analyze_rsi_signals cfg symbol timeframe df store now).1 := by
      unfold analyze_rsi_signals
      split
      · simp
      · exact store_signals_foldl_live cfg symbol timeframe now _ ⟨[], store⟩ store (by simp)
    rw [hst, List.filter_append]
    have hnil : (analyze_rsi_signals cfg symbol timeframe df store now).1.filter
        (fun s => s.timestamp == t) = [] := by
      rw [List.filter_eq_nil_iff]
      intro s hs hb
      exact hall s hs (by simpa using hb)
    rw [hnil, List.append_nil]

/-- Witness for C10: with `demo_e0` persisted at timestamp 1000, the candle at
timestamp 1030 (30 s away) is skipped even though its pair crosses the
oversold threshold. -/
theorem claim_C10_proximity_gate_witness :
    ((analyze_rsi_signals default_config "BTCUSDT" "5m" demo_df_t30 [demo_e0] 1030).1.all
      (fun s => s.timestamp != (1030 : Int))) = true ∧
    (analyze_rsi_signals default_config "BTCUSDT" "5m" demo_df_t30 [demo_e0] 1030).2.filter
      (fun s => s.timestamp == (1030 : Int)) =
      [demo_e0].filter (fun s => s.timestamp == (1030 : Int)) :=
  claim_C10_proximity_gate default_config "BTCUSDT" "5m" demo_df_t30 [demo_e0] 1030 1030
    demo_e0 (by decide) (by decide) (by decide) (by decide) (by decide) (by decide)

/-- Claim C7.  Every settings write either fails validation — with a
descriptive error and the stored row left untouched — or succeeds storing the
validated (normalized) request symbols and an enumerated request timeframe,
with both thresholds taken from the fixed configuration, never from the
request. -/
theorem claim_C7_settings_validation (cfg : WebConfig) (req : SettingsRequest)
    (row : Option UserSettings) :
    ((save_settings_api cfg req row).1 ≠ ApiResponse.success →
      (save_settings_api cfg req row).2 = row) ∧
    ((save_settings_api cfg req row).1 = ApiResponse.success →
      ∃ s : UserSettings,
        (save_settings_api cfg req row).2 = some s ∧
        s.rsi_oversold = cfg.RSI_OVERSOLD ∧
        s.rsi_overbought = cfg.RSI_OVERBOUGHT ∧
        (∃ xs, (req.symbols = SymbolsField.array xs ∨
                (req.symbols = SymbolsField.missing ∧ xs = cfg.DEFAULT_SYMBOLS)) ∧
          validate_symbols [] xs = Except.ok s.symbols ∧ s.symbols ≠ []) ∧
        s.timeframe = (match req.timeframe with
                       | none => cfg.DEFAULT_TIMEFRAME
                       | some tf => tf) ∧
        cfg.AVAILABLE_TIMEFRAMES.contains s.timeframe = true) := by
  obtain ⟨sf, tfq⟩ := req
  unfold save_settings_api save_user_settings
  cases sf with
  | not_a_list =>
    refine ⟨fun _ => rfl, fun hs => ?_⟩
    simp at hs
  | missing =>
    dsimp only
    split
    · exact ⟨fun _ => rfl, fun hs => by simp at hs⟩
    · split
      · exact ⟨fun _ => rfl, fun hs => by simp at hs⟩
      · rename_i valid hval
        split
        · exact ⟨fun _ => rfl, fun hs => by simp at hs⟩
        · rename_i hvne
          split
          · rename_i htf
            refine ⟨fun hne => absurd rfl hne, fun _ => ?_⟩
            refine ⟨_, rfl, rfl, rfl, ⟨cfg.DEFAULT_SYMBOLS, Or.inr ⟨rfl, rfl⟩, hval, ?_⟩, rfl, htf⟩
            intro hnil
            have hv : valid = [] := by simpa using hnil
            exact hvne (by simp [hv])
          · exact ⟨fun _ => rfl, fun hs => by simp at hs⟩
  | array xs =>
    dsimp only
    split
    · exact ⟨fun _ => rfl, fun hs => by simp at hs⟩
    · split
      · exact ⟨fun _ => rfl, fun hs => by simp at hs⟩
      · rename_i valid hval
        split
        · exact ⟨fun _ => rfl, fun hs => by simp at hs⟩
        · rename_i hvne
          split
          · rename_i htf
            refine ⟨fun hne => absurd rfl hne, fun _ => ?_⟩
            refine ⟨_, rfl, rfl, rfl, ⟨xs, Or.inl rfl, hval, ?_⟩, rfl, htf⟩
            intro hnil
            have hv : valid = [] := by simpa using hnil
            exact hvne (by simp [hv])
          · exact ⟨fun _ => rfl, fun hs => by simp at hs⟩

/-- The configuration constants of `config.py` as read by the settings
endpoint. -/
def demo_web_config : WebConfig :=
  { DEFAULT_SYMBOLS := [['B', 'T', 'C', 'U', 'S', 'D', 'T']],
    DEFAULT_TIMEFRAME := "5m",
    AVAILABLE_TIMEFRAMES :=
      ["1m", "3m", "5m", "15m", "30m", "1h", "2h", "4h", "6h", "8h", "12h", "1d"],
    RSI_OVERSOLD := 30,
    RSI_OVERBOUGHT := 70 }

/-- Witness for C7: a request with timeframe `7m` (outside the enumerated
set) is rejected and leaves the stored row untouched. -/
theorem claim_C7_settings_validation_witness :
    (save_settings_api demo_web_config
      { symbols := SymbolsField.array [['b', 't', 'c']], timeframe := some "7m" } none).2 =
      none ∧
    (save_settings_api demo_web_config
      { symbols := SymbolsField.array [['b', 't', 'c']], timeframe := some "7m" } none).1 =
      ApiResponse.failure SettingsError.bad_timeframe :=
  ⟨(claim_C7_settings_validation demo_web_config
      { symbols := SymbolsField.array [['b', 't', 'c']], timeframe := some "7m" } none).1
      (by decide), by decide⟩

end SignalTrading
